import Mathlib

/-!
Verification of `src/worker/scripts/faster_whisper_transcribe.py`.

The script is a CLI adapter: it parses flags, imports the `faster_whisper`
library, invokes transcription, flattens the resulting segments into a flat
JSON payload, and maps each failure stage to an exit code.

Shallow embedding conventions:
- Python floats carrying timestamps are modelled as `ℚ` (the adapter only
  copies, compares and takes maxima of these values, all exact operations).
- A Python attribute that may be absent or `None` is modelled as an
  `Option`: `none` covers both "attribute absent" and "attribute is None",
  since `getattr(x, a, d) or d` treats the two identically.
- Python truthiness (`x or y`) is modelled explicitly: `0.0`, `""`, `[]`
  and `None` are falsy, so `x or y` yields `y` on those values.
- `str.strip()` is modelled by `pyStrip`, stripping the ASCII whitespace
  characters Python strips (space, tab, newline, carriage return, vertical
  tab, form feed).
- The process is modelled as a function from the parsed arguments and the
  collaborator outcome (import failure / transcribe failure / result) to an
  outcome record: what is printed on stdout, what is printed on stderr, and
  the exit status.
-/

namespace FWT

/-- Whitespace characters stripped by Python `str.strip()` (ASCII range). -/
def pyIsSpace (c : Char) : Bool :=
  c == ' ' || c == '\t' || c == '\n' || c == '\r' ||
  c == Char.ofNat 11 || c == Char.ofNat 12

/-- Strip `pyIsSpace` characters from both ends of a character list. -/
def stripList (l : List Char) : List Char :=
  ((l.dropWhile pyIsSpace).reverse.dropWhile pyIsSpace).reverse

/-- Model of Python `s.strip()`. -/
def pyStrip (s : String) : String :=
  ⟨stripList s.data⟩

/-- Model of the Python builtin `max(a, b)` on two floats: `b` when
`a < b`, otherwise `a`. -/
def pyMax (a b : ℚ) : ℚ :=
  if a < b then b else a

/-- Model of Python `v or d` where `v` is a possibly absent float attribute:
`None` (here `none`) and `0.0` are falsy. -/
def pyOrQ (v : Option ℚ) (d : ℚ) : ℚ :=
  match v with
  | none => d
  | some x => if x = 0 then d else x

/-- Model of Python `v or d` where `v` is a possibly absent string attribute:
`None` (here `none`) and `""` are falsy. -/
def pyOrS (v : Option String) (d : String) : String :=
  match v with
  | none => d
  | some t => if t = "" then d else t

/-- A word record produced by the collaborator: `start`/`end`/`word`
attributes, each possibly absent or `None`. -/
structure RawWord where
  start : Option ℚ
  «end» : Option ℚ
  word : Option String
deriving DecidableEq

/-- A segment record produced by the collaborator. -/
structure RawSegment where
  start : Option ℚ
  «end» : Option ℚ
  text : Option String
  words : Option (List RawWord)
deriving DecidableEq

/-- The collaborator metadata record (`info`); only its `language` attribute
is read by the adapter. -/
structure RawInfo where
  language : Option String
deriving DecidableEq

/-- One entry of the output `segments` list (line 56-62 of the script). -/
structure OutSegment where
  start : ℚ
  «end» : ℚ
  text : String
deriving DecidableEq

/-- One entry of the output `words` list (line 70 of the script). -/
structure OutWord where
  start : ℚ
  «end» : ℚ
  word : String
deriving DecidableEq

/-- The success payload printed on stdout (lines 72-78). -/
structure Payload where
  text : String
  duration : ℚ
  segments : List OutSegment
  words : List OutWord
  language : String
deriving DecidableEq

/-- Line 50: `seg_text = (segment.text or "").strip()`. -/
def segText (s : RawSegment) : String :=
  pyStrip (pyOrS s.text "")

/-- Line 53: `seg_start = float(segment.start or 0.0)`. -/
def segStart (s : RawSegment) : ℚ :=
  pyOrQ s.start 0

/-- Line 54: `seg_end = float(segment.end or seg_start)`. -/
def segEnd (s : RawSegment) : ℚ :=
  pyOrQ s.«end» (segStart s)

/-- The output segment record built on lines 56-62. -/
def outSegment (s : RawSegment) : OutSegment :=
  ⟨segStart s, segEnd s, segText s⟩

/-- Line 65: `w_start = float(getattr(word, "start", 0.0) or 0.0)`. -/
def wordStart (w : RawWord) : ℚ :=
  pyOrQ w.start 0

/-- Line 66: `w_end = float(getattr(word, "end", w_start) or w_start)`. -/
def wordEnd (w : RawWord) : ℚ :=
  pyOrQ w.«end» (wordStart w)

/-- Line 67: `token = str(getattr(word, "word", "") or "").strip()`. -/
def wordToken (w : RawWord) : String :=
  pyStrip (pyOrS w.word "")

/-- Body of the inner loop over `words` (lines 64-70): skip the word when
its trimmed token is empty, otherwise append the flattened record. -/
def processWord (acc : List OutWord) (w : RawWord) : List OutWord :=
  if wordToken w = "" then acc
  else acc ++ [⟨wordStart w, wordEnd w, wordToken w⟩]

/-- Line 63: `words = getattr(segment, "words", None) or []`; `None` and
the empty list are falsy. -/
def segRawWords (s : RawSegment) : List RawWord :=
  match s.words with
  | none => []
  | some l => if l.isEmpty then [] else l

/-- Accumulator of the flattening loop (lines 44-47): the four locals
`out_segments`, `out_words`, `text_parts`, `max_end`. -/
structure FlattenState where
  out_segments : List OutSegment
  out_words : List OutWord
  text_parts : List String
  max_end : ℚ
deriving DecidableEq

/-- Body of the loop `for segment in segments:` (lines 49-70). -/
def processSegment (st : FlattenState) (segment : RawSegment) : FlattenState :=
  let seg_text := segText segment
  let text_parts := if seg_text = "" then st.text_parts
                    else st.text_parts ++ [seg_text]
  let seg_start := segStart segment
  let seg_end := segEnd segment
  let max_end := pyMax st.max_end seg_end
  let out_segments := st.out_segments ++ [⟨seg_start, seg_end, seg_text⟩]
  let out_words := (segRawWords segment).foldl processWord st.out_words
  ⟨out_segments, out_words, text_parts, max_end⟩

/-- The whole flattening pass: locals initialised on lines 44-47, then the
loop of lines 49-70. -/
def flatten (segments : List RawSegment) : FlattenState :=
  segments.foldl processSegment ⟨[], [], [], 0⟩

/-- The payload built on lines 72-78: `" ".join(text_parts).strip()`,
`float(max_end or 0.0)`, the two accumulated lists, and
`getattr(info, "language", args.language)`. -/
def buildPayload (language : String) (segments : List RawSegment)
    (info : RawInfo) : Payload :=
  let st := flatten segments
  { text := pyStrip (String.intercalate " " st.text_parts)
    duration := if st.max_end = 0 then 0 else st.max_end
    segments := st.out_segments
    words := st.out_words
    language := info.language.getD language }

/-- Parsed CLI arguments (lines 9-14). -/
structure Args where
  audio : String
  model : String
  language : String
  computeType : String
deriving DecidableEq

/-- Argument parsing with the declared defaults: `--model small`,
`--language pt`, `--compute-type int8`; `--audio` required. -/
def parseArgs (audio : String) (model language computeType : Option String) :
    Args :=
  { audio := audio
    model := model.getD "small"
    language := language.getD "pt"
    computeType := computeType.getD "int8" }

/-- Outcome of the external collaborator, the only non-determinism of the
process: the import fails, the model construction / transcription call
raises, or segments and metadata are returned. -/
inductive CollabResult where
  | importFail (details : String)
  | transcribeFail (details : String)
  | ok (segments : List RawSegment) (info : RawInfo)
deriving DecidableEq

/-- The JSON object printed on stderr on failure: an `error` string and an
optional `hint` string (present only for the import-failure payload). -/
structure ErrPayload where
  error : String
  hint : Option String
deriving DecidableEq

/-- Observable outcome of one process invocation: the payload printed on
stdout (if any), the error object printed on stderr (if any), and the exit
status returned by `main`. -/
structure ProcOutcome where
  stdout : Option Payload
  stderrOut : Option ErrPayload
  exitCode : Nat
deriving DecidableEq

/-- The `main` function after argument parsing (lines 16-80): catch the
failing import (exit 2, hint included), catch the transcription failure
(exit 3, no hint), otherwise flatten, print the payload and return 0. -/
def run (args : Args) (collab : CollabResult) : ProcOutcome :=
  match collab with
  | .importFail d =>
      ⟨none,
       some ⟨"faster_whisper import failed: " ++ d,
             some "Install with: pip3 install faster-whisper"⟩,
       2⟩
  | .transcribeFail d =>
      ⟨none, some ⟨"transcribe failed: " ++ d, none⟩, 3⟩
  | .ok segments info =>
      ⟨some (buildPayload args.language segments info), none, 0⟩

/-- The flattened record produced for one collaborator word, or `none` when
the word is skipped because its trimmed token is empty (lines 64-70,
functional form of `processWord`). -/
def outWordOpt (w : RawWord) : Option OutWord :=
  if wordToken w = "" then none
  else some ⟨wordStart w, wordEnd w, wordToken w⟩

/-- All output word records contributed by one segment: its word records in
order, flattened, the empty-token ones dropped. -/
def segWords (s : RawSegment) : List OutWord :=
  (segRawWords s).filterMap outWordOpt

/-- The rational 0.5, built with explicit numerator and denominator so that
kernel reduction does not have to normalise a fraction. -/
def q05 : ℚ := ⟨1, 2, by norm_num, by norm_num⟩

/-- The rational 1.2 with explicit numerator and denominator. -/
def q12 : ℚ := ⟨6, 5, by norm_num, by norm_num⟩

/-- The rational 1.8 with explicit numerator and denominator. -/
def q18 : ℚ := ⟨9, 5, by norm_num, by norm_num⟩

/-- The rational 2.5 with explicit numerator and denominator. -/
def q25 : ℚ := ⟨5, 2, by norm_num, by norm_num⟩

lemma q05_eq : q05 = (0.5 : ℚ) := by
  rw [show q05 = Rat.divInt (1 : ℤ) (2 : ℤ) from Rat.mk'_eq_divInt]
  rw [Rat.divInt_eq_div]; norm_num

lemma q12_eq : q12 = (1.2 : ℚ) := by
  rw [show q12 = Rat.divInt (6 : ℤ) (5 : ℤ) from Rat.mk'_eq_divInt]
  rw [Rat.divInt_eq_div]; norm_num

lemma q18_eq : q18 = (1.8 : ℚ) := by
  rw [show q18 = Rat.divInt (9 : ℤ) (5 : ℤ) from Rat.mk'_eq_divInt]
  rw [Rat.divInt_eq_div]; norm_num

lemma q25_eq : q25 = (2.5 : ℚ) := by
  rw [show q25 = Rat.divInt (5 : ℤ) (2 : ℤ) from Rat.mk'_eq_divInt]
  rw [Rat.divInt_eq_div]; norm_num

lemma pyMax_eq_max (a b : ℚ) : pyMax a b = max a b := by
  unfold pyMax
  rcases lt_or_le a b with h | h
  · simp [h, max_eq_right h.le]
  · simp [not_lt.mpr h, max_eq_left h]

lemma le_foldl_max (l : List ℚ) : ∀ a : ℚ, a ≤ l.foldl max a := by
  induction l with
  | nil => intro a; simp
  | cons x xs ih =>
    intro a
    simp only [List.foldl_cons]
    exact le_trans (le_max_left a x) (ih (max a x))

lemma mem_le_foldl_max (l : List ℚ) : ∀ a x : ℚ, x ∈ l → x ≤ l.foldl max a := by
  induction l with
  | nil => intro a x hx; simp at hx
  | cons y ys ih =>
    intro a x hx
    simp only [List.foldl_cons]
    rcases List.mem_cons.mp hx with h | h
    · subst h
      exact le_trans (le_max_right a x) (le_foldl_max ys (max a x))
    · exact ih (max a y) x h

lemma foldl_processWord (l : List RawWord) :
    ∀ acc : List OutWord, l.foldl processWord acc = acc ++ l.filterMap outWordOpt := by
  induction l with
  | nil => intro acc; simp
  | cons w ws ih =>
    intro acc
    simp only [List.foldl_cons, List.filterMap_cons]
    by_cases h : wordToken w = ""
    · simp [processWord, outWordOpt, h, ih]
    · simp [processWord, outWordOpt, h, ih, List.append_assoc]

lemma foldl_processSegment_out_segments (segs : List RawSegment) :
    ∀ st : FlattenState,
      (segs.foldl processSegment st).out_segments =
        st.out_segments ++ segs.map outSegment := by
  induction segs with
  | nil => intro st; simp
  | cons s rest ih =>
    intro st
    simp only [List.foldl_cons, List.map_cons]
    rw [ih]
    simp [processSegment, outSegment]

lemma foldl_processSegment_out_words (segs : List RawSegment) :
    ∀ st : FlattenState,
      (segs.foldl processSegment st).out_words =
        st.out_words ++ (segs.map segWords).flatten := by
  induction segs with
  | nil => intro st; simp
  | cons s rest ih =>
    intro st
    simp only [List.foldl_cons, List.map_cons, List.flatten_cons]
    rw [ih]
    simp [processSegment, foldl_processWord, segWords, List.append_assoc]

lemma foldl_processSegment_text_parts (segs : List RawSegment) :
    ∀ st : FlattenState,
      (segs.foldl processSegment st).text_parts =
        st.text_parts ++ (segs.map segText).filter (fun t => t ≠ "") := by
  induction segs with
  | nil => intro st; simp
  | cons s rest ih =>
    intro st
    simp only [List.foldl_cons, List.map_cons, List.filter_cons]
    rw [ih]
    by_cases h : segText s = "" <;> simp [processSegment, h, List.append_assoc]

lemma foldl_processSegment_max_end (segs : List RawSegment) :
    ∀ st : FlattenState,
      (segs.foldl processSegment st).max_end =
        (segs.map segEnd).foldl max st.max_end := by
  induction segs with
  | nil => intro st; simp
  | cons s rest ih =>
    intro st
    simp only [List.foldl_cons, List.map_cons]
    rw [ih]
    simp [processSegment, pyMax_eq_max]

lemma flatten_out_segments (segs : List RawSegment) :
    (flatten segs).out_segments = segs.map outSegment := by
  simp [flatten, foldl_processSegment_out_segments]

lemma flatten_out_words (segs : List RawSegment) :
    (flatten segs).out_words = (segs.map segWords).flatten := by
  simp [flatten, foldl_processSegment_out_words]

lemma flatten_text_parts (segs : List RawSegment) :
    (flatten segs).text_parts = (segs.map segText).filter (fun t => t ≠ "") := by
  simp [flatten, foldl_processSegment_text_parts]

lemma flatten_max_end (segs : List RawSegment) :
    (flatten segs).max_end = (segs.map segEnd).foldl max 0 := by
  simp [flatten, foldl_processSegment_max_end]

lemma buildPayload_segments (lang : String) (segs : List RawSegment) (info : RawInfo) :
    (buildPayload lang segs info).segments = segs.map outSegment := by
  simp [buildPayload, flatten_out_segments]

lemma buildPayload_words (lang : String) (segs : List RawSegment) (info : RawInfo) :
    (buildPayload lang segs info).words = (segs.map segWords).flatten := by
  simp [buildPayload, flatten_out_words]

lemma buildPayload_language (lang : String) (segs : List RawSegment) (info : RawInfo) :
    (buildPayload lang segs info).language = info.language.getD lang := by
  simp [buildPayload]

lemma buildPayload_duration (lang : String) (segs : List RawSegment) (info : RawInfo) :
    (buildPayload lang segs info).duration = (segs.map segEnd).foldl max 0 := by
  rw [← flatten_max_end]
  by_cases h : (flatten segs).max_end = 0 <;> simp [buildPayload, h]

lemma dropWhile_eq_cons_head {α : Type} {p : α → Bool} :
    ∀ {l : List α} {a : α} {t : List α}, l.dropWhile p = a :: t → p a = false := by
  intro l
  induction l with
  | nil => intro a t h; simp at h
  | cons x xs ih =>
    intro a t h
    rw [List.dropWhile_cons] at h
    by_cases hx : p x
    · rw [if_pos hx] at h
      exact ih h
    · rw [if_neg hx] at h
      cases h
      simpa using hx

lemma stripList_eq_nil_all_space {l : List Char} (h : stripList l = []) :
    ∀ c ∈ l, pyIsSpace c = true := by
  unfold stripList at h
  have h2 : (l.dropWhile pyIsSpace).reverse.dropWhile pyIsSpace = [] := by
    have := congrArg List.reverse h
    simpa using this
  have h4 : ∀ c ∈ l.dropWhile pyIsSpace, pyIsSpace c = true := by
    intro c hc
    exact List.dropWhile_eq_nil_iff.mp h2 c (List.mem_reverse.mpr hc)
  have h5 : l.dropWhile pyIsSpace = [] := by
    cases hd : l.dropWhile pyIsSpace with
    | nil => rfl
    | cons a t =>
      have hfalse := dropWhile_eq_cons_head hd
      have htrue := h4 a (by rw [hd]; exact List.mem_cons_self a t)
      rw [hfalse] at htrue
      cases htrue
  exact List.dropWhile_eq_nil_iff.mp h5

lemma stripList_stripList_ne {l : List Char} (h : stripList l ≠ []) :
    stripList (stripList l) ≠ [] := by
  intro hc
  have hall : ∀ c ∈ stripList l, pyIsSpace c = true := stripList_eq_nil_all_space hc
  have hsl : stripList l = ((l.dropWhile pyIsSpace).reverse.dropWhile pyIsSpace).reverse :=
    rfl
  cases hd : (l.dropWhile pyIsSpace).reverse.dropWhile pyIsSpace with
  | nil => rw [hsl, hd] at h; simp at h
  | cons a t =>
    have ha : pyIsSpace a = false := dropWhile_eq_cons_head hd
    have hmem : a ∈ stripList l := by
      rw [hsl, hd, List.mem_reverse]
      exact List.mem_cons_self a t
    have := hall a hmem
    rw [ha] at this
    cases this

lemma pyStrip_eq_empty_iff (s : String) : pyStrip s = "" ↔ stripList s.data = [] := by
  constructor
  · intro h
    exact congrArg String.data h
  · intro h
    unfold pyStrip
    rw [h]

lemma pyStrip_pyStrip_ne {s : String} (h : pyStrip s ≠ "") :
    pyStrip (pyStrip s) ≠ "" := by
  intro hc
  apply h
  rw [pyStrip_eq_empty_iff]
  have hdata : (pyStrip s).data = stripList s.data := rfl
  rw [pyStrip_eq_empty_iff, hdata] at hc
  by_contra hne
  exact stripList_stripList_ne hne hc

/-- C1: on the concrete two-segment collaborator result of the spec's
scenario (segment `{start 0.0, end 1.2, text "Hello "}` with one word,
segment `{start 1.2, end 2.5, text " world"}` with an empty-token word and
the word `world`) and metadata language `en`, the adapter prints exactly
the expected payload (`text "Hello world"`, `duration 2.5`, the two trimmed
segment records, the two kept word records, `language "en"`), prints
nothing on stderr, and returns exit status 0. -/
theorem scenario_two_segments :
    run (parseArgs "audio.wav" none none none)
      (.ok
        [⟨some 0, some 1.2, some "Hello ",
          some [⟨some 0, some 0.5, some "Hello"⟩]⟩,
         ⟨some 1.2, some 2.5, some " world",
          some [⟨some 1.2, some 1.8, some ""⟩,
                ⟨some 1.8, some 2.5, some "world"⟩]⟩]
        ⟨some "en"⟩) =
      ⟨some
        ⟨"Hello world", 2.5,
         [⟨0, 1.2, "Hello"⟩, ⟨1.2, 2.5, "world"⟩],
         [⟨0, 0.5, "Hello"⟩, ⟨1.8, 2.5, "world"⟩],
         "en"⟩,
       none, 0⟩ := by
  simp only [← q05_eq, ← q12_eq, ← q18_eq, ← q25_eq]
  decide

/-- C7: whenever the import of the transcription capability fails, the
process prints nothing on stdout, prints on stderr the JSON object whose
`error` value is `faster_whisper import failed: <details>` and whose `hint`
value is the installation hint, and returns exit status 2. -/
theorem import_failure_outcome (args : Args) (details : String) :
    run args (.importFail details) =
      ⟨none,
       some ⟨"faster_whisper import failed: " ++ details,
             some "Install with: pip3 install faster-whisper"⟩,
       2⟩ := rfl

/-- C8: whenever model construction or the transcription call raises, the
process prints nothing on stdout, prints on stderr the JSON object whose
only key is `error` (the `hint` field is absent) with value
`transcribe failed: <details>`, and returns exit status 3. -/
theorem transcribe_failure_outcome (args : Args) (details : String) :
    run args (.transcribeFail details) =
      ⟨none, some ⟨"transcribe failed: " ++ details, none⟩, 3⟩ := rfl

/-- C9: the output `segments` list is the input segment list mapped through
the per-segment transformation, so it has exactly one entry per input
segment in input order and no segment is ever filtered out. -/
theorem segments_one_per_input (segs : List RawSegment) (info : RawInfo)
    (lang : String) :
    (buildPayload lang segs info).segments = segs.map outSegment ∧
    (buildPayload lang segs info).segments.length = segs.length := by
  refine ⟨buildPayload_segments lang segs info, ?_⟩
  rw [buildPayload_segments]
  exact List.length_map segs outSegment

/-- C4: the output `text` equals the trimmed single-space join of the
trimmed texts of exactly those segments whose trimmed text is non-empty;
empty or whitespace-only segment texts contribute nothing. -/
theorem text_join_nonempty_trimmed (segs : List RawSegment) (info : RawInfo)
    (lang : String) :
    (buildPayload lang segs info).text =
      pyStrip (String.intercalate " "
        ((segs.map segText).filter (fun t => t ≠ ""))) := by
  simp [buildPayload, flatten_text_parts]

/-- C2 counterexample: `max_end` is initialised to `0.0` (line 47), so for
a single segment whose (present, emitted) end is `-1` the output `duration`
is `0`, not the maximum `-1` of the segment end values. -/
theorem duration_not_max_of_ends_cex :
    RawSegment.«end» ⟨some (-1), some (-1), none, none⟩ = some (-1) ∧
    segEnd ⟨some (-1), some (-1), none, none⟩ = -1 ∧
    (buildPayload "pt" [⟨some (-1), some (-1), none, none⟩] ⟨none⟩).duration = 0 ∧
    ¬ ((0 : ℚ) = -1) := by
  decide

/-- C2 (amended): the output `duration` equals the maximum of `0.0` and all
emitted segment end values (hence the maximum end value whenever all ends
are nonnegative), equals `0.0` when the segment sequence is empty, and is
greater than or equal to every segment's emitted end and every present
input end value. -/
theorem duration_max_of_ends_amended (segs : List RawSegment) (info : RawInfo)
    (lang : String) :
    (buildPayload lang segs info).duration = (segs.map segEnd).foldl max 0 ∧
    (segs = [] → (buildPayload lang segs info).duration = 0) ∧
    (∀ s ∈ segs, segEnd s ≤ (buildPayload lang segs info).duration) ∧
    (∀ s ∈ segs, ∀ e, s.«end» = some e →
      e ≤ (buildPayload lang segs info).duration) := by
  refine ⟨buildPayload_duration lang segs info, ?_, ?_, ?_⟩
  · intro h
    subst h
    simp [buildPayload_duration]
  · intro s hs
    rw [buildPayload_duration]
    exact mem_le_foldl_max _ 0 _ (List.mem_map_of_mem segEnd hs)
  · intro s hs e he
    rw [buildPayload_duration]
    by_cases h0 : e = 0
    · subst h0
      exact le_foldl_max _ 0
    · have hse : segEnd s = e := by simp [segEnd, pyOrQ, he, h0]
      rw [← hse]
      exact mem_le_foldl_max _ 0 _ (List.mem_map_of_mem segEnd hs)

/-- Witness for C2 (amended), at the empty sequence and at a one-segment
sequence with end `2`. -/
theorem duration_max_of_ends_amended_witness :
    (buildPayload "pt" ([] : List RawSegment) ⟨none⟩).duration = 0 ∧
    segEnd ⟨some 0, some 2, none, none⟩ ≤
      (buildPayload "pt" [⟨some 0, some 2, none, none⟩] ⟨none⟩).duration ∧
    (2 : ℚ) ≤ (buildPayload "pt" [⟨some 0, some 2, none, none⟩] ⟨none⟩).duration :=
  ⟨(duration_max_of_ends_amended [] ⟨none⟩ "pt").2.1 rfl,
   (duration_max_of_ends_amended [⟨some 0, some 2, none, none⟩] ⟨none⟩ "pt").2.2.1
     ⟨some 0, some 2, none, none⟩ (by simp),
   (duration_max_of_ends_amended [⟨some 0, some 2, none, none⟩] ⟨none⟩ "pt").2.2.2
     ⟨some 0, some 2, none, none⟩ (by simp) 2 rfl⟩

/-- C3 counterexample: `segment.end or seg_start` (line 54) treats a
present end of `0.0` as falsy, so the segment `{start 1.0, end 0.0}` is
emitted with end `1`, not the present value `0`. -/
theorem present_zero_end_not_kept_cex :
    RawSegment.«end» ⟨some 1, some 0, none, none⟩ = some 0 ∧
    (outSegment ⟨some 1, some 0, none, none⟩).«end» = 1 ∧
    ¬ ((1 : ℚ) = 0) := by
  decide

/-- C3 (amended): the output segment keeps a present `start` unchanged and
defaults it to `0.0` when absent, and keeps a present `end` unchanged only
when that end is non-zero; when `end` is absent, `None` or `0.0` (falsy) it
defaults to the emitted start. -/
theorem segment_time_defaults_amended (s : RawSegment) :
    (∀ x, s.start = some x → (outSegment s).start = x) ∧
    (s.start = none → (outSegment s).start = 0) ∧
    (∀ y, s.«end» = some y → y ≠ 0 → (outSegment s).«end» = y) ∧
    ((s.«end» = none ∨ s.«end» = some 0) →
      (outSegment s).«end» = (outSegment s).start) := by
  refine ⟨?_, ?_, ?_, ?_⟩
  · intro x hx
    by_cases h0 : x = 0
    · subst h0
      simp [outSegment, segStart, pyOrQ, hx]
    · simp [outSegment, segStart, pyOrQ, hx, h0]
  · intro hx
    simp [outSegment, segStart, pyOrQ, hx]
  · intro y hy h0
    simp [outSegment, segEnd, pyOrQ, hy, h0]
  · rintro (h | h) <;> simp [outSegment, segEnd, pyOrQ, h]

/-- Witness for C3 (amended): a present start `2` and a present non-zero
end `3` are kept; an absent start becomes `0`; a present end `0` is
replaced by the emitted start. -/
theorem segment_time_defaults_amended_witness :
    (outSegment ⟨some 2, some 3, none, none⟩).start = 2 ∧
    (outSegment ⟨some 2, some 3, none, none⟩).«end» = 3 ∧
    (outSegment ⟨none, none, none, none⟩).start = 0 ∧
    (outSegment ⟨some 2, some 0, none, none⟩).«end» =
      (outSegment ⟨some 2, some 0, none, none⟩).start :=
  ⟨(segment_time_defaults_amended ⟨some 2, some 3, none, none⟩).1 2 rfl,
   (segment_time_defaults_amended ⟨some 2, some 3, none, none⟩).2.2.1 3 rfl
     (by decide),
   (segment_time_defaults_amended ⟨none, none, none, none⟩).2.1 rfl,
   (segment_time_defaults_amended ⟨some 2, some 0, none, none⟩).2.2.2
     (Or.inr rfl)⟩

/-- C5: the output `words` list is the flattening, in segment order then
word order, of the per-segment word records whose trimmed token is
non-empty, and no emitted entry's `word` field is empty or empty after
trimming. -/
theorem words_flattened_nonempty (segs : List RawSegment) (info : RawInfo)
    (lang : String) :
    (buildPayload lang segs info).words = (segs.map segWords).flatten ∧
    ∀ w ∈ (buildPayload lang segs info).words,
      w.word ≠ "" ∧ pyStrip w.word ≠ "" := by
  refine ⟨buildPayload_words lang segs info, ?_⟩
  intro w hw
  rw [buildPayload_words] at hw
  rcases List.mem_flatten.mp hw with ⟨l, hl, hwl⟩
  rcases List.mem_map.mp hl with ⟨s, _, rfl⟩
  rcases List.mem_filterMap.mp hwl with ⟨w0, _, hout⟩
  unfold outWordOpt at hout
  by_cases h : wordToken w0 = ""
  · rw [if_pos h] at hout
    cases hout
  · rw [if_neg h] at hout
    have hw2 := Option.some.inj hout
    subst hw2
    exact ⟨h, pyStrip_pyStrip_ne h⟩

/-- Witness for C5, at one segment holding a single word with token
`Hello` and no timestamps. -/
theorem words_flattened_nonempty_witness :
    (buildPayload "pt"
        [⟨none, none, none, some [⟨none, none, some "Hello"⟩]⟩] ⟨none⟩).words =
      ([⟨none, none, none, some [⟨none, none, some "Hello"⟩]⟩].map segWords).flatten ∧
    (OutWord.word ⟨0, 0, "Hello"⟩ ≠ "" ∧
     pyStrip (OutWord.word ⟨0, 0, "Hello"⟩) ≠ "") :=
  ⟨(words_flattened_nonempty
      [⟨none, none, none, some [⟨none, none, some "Hello"⟩]⟩] ⟨none⟩ "pt").1,
   (words_flattened_nonempty
      [⟨none, none, none, some [⟨none, none, some "Hello"⟩]⟩] ⟨none⟩ "pt").2
     ⟨0, 0, "Hello"⟩ (by decide)⟩

/-- C6: the output `language` equals the metadata record's language tag
when present and otherwise the `--language` flag value, whose parsed
default is `pt`. -/
theorem language_tag_selection (segs : List RawSegment) (info : RawInfo)
    (args : Args) :
    (∀ l, info.language = some l →
      (buildPayload args.language segs info).language = l) ∧
    (info.language = none →
      (buildPayload args.language segs info).language = args.language) ∧
    (∀ audio model ctype, (parseArgs audio model none ctype).language = "pt") := by
  refine ⟨?_, ?_, ?_⟩
  · intro l hl
    simp [buildPayload_language, hl]
  · intro hl
    simp [buildPayload_language, hl]
  · intro audio model ctype
    simp [parseArgs]

/-- Witness for C6, at metadata language `en`, absent metadata language,
and an invocation without a `--language` flag. -/
theorem language_tag_selection_witness :
    (buildPayload (Args.language ⟨"a", "small", "pt", "int8"⟩) [] ⟨some "en"⟩).language = "en" ∧
    (buildPayload (Args.language ⟨"a", "small", "pt", "int8"⟩) [] ⟨none⟩).language =
      Args.language ⟨"a", "small", "pt", "int8"⟩ ∧
    (parseArgs "a" none none none).language = "pt" :=
  ⟨(language_tag_selection [] ⟨some "en"⟩ ⟨"a", "small", "pt", "int8"⟩).1 "en" rfl,
   (language_tag_selection [] ⟨none⟩ ⟨"a", "small", "pt", "int8"⟩).2.1 rfl,
   (language_tag_selection [] ⟨none⟩ ⟨"a", "small", "pt", "int8"⟩).2.2 "a" none none⟩

/-- C10: a word record with absent/None start is emitted with start `0`, a
word record with absent/None end is emitted with end equal to the emitted
start, and a word record with absent/None token is treated as empty and
dropped by the word loop (which, being a total function, never raises). -/
theorem word_record_defaults (w : RawWord) :
    (w.start = none → wordStart w = 0) ∧
    (w.«end» = none → wordEnd w = wordStart w) ∧
    (w.word = none → ∀ acc, processWord acc w = acc) ∧
    (w.word = none → outWordOpt w = none) := by
  have htok : w.word = none → wordToken w = "" := by
    intro h
    unfold wordToken pyOrS
    rw [h]
    decide
  refine ⟨?_, ?_, ?_, ?_⟩
  · intro h
    simp [wordStart, pyOrQ, h]
  · intro h
    simp [wordEnd, pyOrQ, h]
  · intro h acc
    simp [processWord, htok h]
  · intro h
    simp [outWordOpt, htok h]

/-- Witness for C10, at the word record with all three attributes absent. -/
theorem word_record_defaults_witness :
    wordStart ⟨none, none, none⟩ = 0 ∧
    wordEnd ⟨none, none, none⟩ = wordStart ⟨none, none, none⟩ ∧
    processWord [] ⟨none, none, none⟩ = [] ∧
    outWordOpt ⟨none, none, none⟩ = none :=
  ⟨(word_record_defaults ⟨none, none, none⟩).1 rfl,
   (word_record_defaults ⟨none, none, none⟩).2.1 rfl,
   (word_record_defaults ⟨none, none, none⟩).2.2.1 rfl [],
   (word_record_defaults ⟨none, none, none⟩).2.2.2 rfl⟩

end FWT
